import Mathlib

/-!
Shallow embedding of the payment-connector routing core
(`crates/router/src/core/payments/routing.rs`) and of the webhook helper
(`crates/router/src/core/webhooks/utils.rs`), with theorems checking the
natural-language specification against the code.

External collaborators (the storage layer, the `rand` crate's generators, the
euclid constraint-graph engine, serde parsing) are modelled by explicit
parameters or by small deterministic stand-ins; the control flow and data flow
of the repository's own functions are translated statement by statement.
-/

/-- From `api_models::routing::RoutableConnectorChoice`: a connector name
together with an optional merchant connector account id.  Equality is
structural value equality, as derived in the source. -/
structure RoutableConnectorChoice where
  connector : String
  merchant_connector_id : Option String
deriving DecidableEq

/-- From `api_models::routing::ConnectorVolumeSplit`: a routable choice with
its `u8` weight (modelled as `Nat`; `u8` weights are never negative). -/
structure ConnectorVolumeSplit where
  connector : RoutableConnectorChoice
  split : Nat
deriving DecidableEq

/-- The `errors::RoutingError` kinds reachable from the embedded functions. -/
inductive RoutingError
  | ProfileIdMissing
  | FallbackConfigFetchFailed
  | ConnectorSelectionFailed
  | DslExecutionError
  | DslIncorrectSelectionAlgorithm
  | DslFinalConnectorSelectionFailed
  | DslMissingRequiredField (field_name : String)
  | VolumeSplitFailed
  | KgraphAnalysisError
  | KgraphCacheRefreshFailed
  | MetadataParsingError
  | ProfileNotFound
  | InvalidRoutingAlgorithmStructure
deriving DecidableEq

/-- Sum of the `split` weights: `splits.iter().map(|sp| sp.split)` is the
weight list handed to `WeightedIndex::new`. -/
def totalWeight (splits : List ConnectorVolumeSplit) : Nat :=
  (splits.map (fun sp => sp.split)).sum

/-- Model of `rand::distributions::WeightedIndex::new` over the `u8` weights:
construction succeeds iff the weight list is non-empty and its total is
positive (the `NoItem` and `AllWeightsZero` errors; `u8` weights cannot be
negative, so `InvalidWeight` is unreachable here).  For `Nat` weights both
failure cases are exactly `weights.sum = 0`. -/
def weightedIndexNew (weights : List Nat) : Except Unit (List Nat) :=
  if weights.sum = 0 then .error () else .ok weights

/-- Model of `WeightedIndex::sample`: a uniform draw `u` below the total
weight selects the first index whose cumulative weight exceeds `u`. -/
def weightedSample : List Nat → Nat → Nat
  | [], _ => 0
  | w :: ws, u => if u < w then 0 else weightedSample ws (u - w) + 1

/-- The raw PRNG draw is reduced modulo the total weight to obtain the uniform
draw consumed by the weighted distribution. -/
def sampleIndex (weights : List Nat) (draw : Nat) : Nat :=
  weightedSample weights (draw % weights.sum)

/-- Model of `std::collections::hash_map::DefaultHasher` applied to the seed
string (`seed.hash(&mut hasher); hasher.finish()`).  The library hash is
SipHash-1-3 with fixed keys; the property the routing code relies on is that
it is a pure, stable, deterministic 64-bit function of the string, modelled
here by a deterministic 64-bit fold over the characters. -/
def defaultHasherFinish (seed : String) : Nat :=
  seed.data.foldl (fun h c => (h * 1099511628211 + c.toNat) % (2 ^ 64)) 14695981039346656037

/-- Model of the draw taken from `rand_chacha::ChaCha8Rng::seed_from_u64`:
a pure deterministic 64-bit function of the 64-bit seed (the real generator is
the ChaCha8 stream cipher; only determinism matters to the claims). -/
def chaCha8Draw (seed : Nat) : Nat :=
  (seed * 6364136223846793005 + 1442695040888963407) % (2 ^ 64)

/-- The index-sampling step of `perform_volume_split` (routing.rs:462-472):
with `Some(seed)` the draw comes from a ChaCha generator seeded with the
64-bit hash of the seed; with `None` it comes from `rand::thread_rng()`,
modelled by the explicit `thread_rng_draw` parameter. -/
def volumeSplitDraw (rng_seed : Option String) (thread_rng_draw : Nat) : Nat :=
  match rng_seed with
  | some seed => chaCha8Draw (defaultHasherFinish seed)
  | none => thread_rng_draw

/-- `perform_volume_split` (routing.rs:453-485): build the weighted
distribution over the `u8` weights (`VolumeSplitFailed` on failure), sample
one index, guard the index with `splits.get(idx)` (`VolumeSplitFailed` when
out of range), move the selected entry to the front
(`remove(idx)` / `insert(0, removed)`) and project to connectors. -/
def perform_volume_split (splits : List ConnectorVolumeSplit)
    (rng_seed : Option String) (thread_rng_draw : Nat) :
    Except RoutingError (List RoutableConnectorChoice) :=
  let weights := splits.map (fun sp => sp.split)
  match weightedIndexNew weights with
  | .error _ => .error .VolumeSplitFailed
  | .ok w =>
    let idx := sampleIndex w (volumeSplitDraw rng_seed thread_rng_draw)
    match splits[idx]? with
    | none => .error .VolumeSplitFailed
    | some removed =>
      .ok ((removed :: splits.eraseIdx idx).map (fun sp => sp.connector))

theorem weightedSample_lt (ws : List Nat) (u : Nat) (h : u < ws.sum) :
    weightedSample ws u < ws.length := by
  induction ws generalizing u with
  | nil => simp at h
  | cons w ws ih =>
    simp only [weightedSample]
    split
    · simp
    · rename_i hlt
      have hu : u - w < ws.sum := by
        simp only [List.sum_cons] at h
        omega
      have := ih (u - w) hu
      simp only [List.length_cons]
      omega

theorem sampleIndex_lt (weights : List Nat) (draw : Nat) (h : weights.sum ≠ 0) :
    sampleIndex weights draw < weights.length :=
  weightedSample_lt weights (draw % weights.sum) (Nat.mod_lt draw (Nat.pos_of_ne_zero h))

theorem eraseIdx_map_comm {α β : Type} (f : α → β) :
    ∀ (l : List α) (i : Nat), (l.eraseIdx i).map f = (l.map f).eraseIdx i
  | [], _ => rfl
  | _ :: _, 0 => rfl
  | a :: l, i + 1 => by
    simp only [List.eraseIdx_cons_succ, List.map_cons, eraseIdx_map_comm f l i]

theorem get_cons_eraseIdx_perm {α : Type} :
    ∀ (l : List α) (i : Nat) (h : i < l.length),
      (l.get ⟨i, h⟩ :: l.eraseIdx i).Perm l
  | _ :: _, 0, _ => by simp [List.eraseIdx_cons_zero]
  | a :: l, i + 1, h => by
    have h' : i < l.length := Nat.lt_of_succ_lt_succ (by simpa using h)
    show ((a :: l).get ⟨i + 1, h⟩ :: a :: l.eraseIdx i).Perm (a :: l)
    have hget : (a :: l).get ⟨i + 1, h⟩ = l.get ⟨i, h'⟩ := rfl
    rw [hget]
    exact (List.Perm.swap a (l.get ⟨i, h'⟩) (l.eraseIdx i)).trans
      ((get_cons_eraseIdx_perm l i h').cons a)

/-- Helper for the volume-split theorems: with a positive total weight the
distribution is built, the sampled index is in bounds and the result moves the
selected entry to the head. -/
theorem perform_volume_split_eq (splits : List ConnectorVolumeSplit)
    (rng_seed : Option String) (thread_rng_draw : Nat)
    (hpos : totalWeight splits ≠ 0) :
    ∃ hi : sampleIndex (splits.map (fun sp => sp.split))
        (volumeSplitDraw rng_seed thread_rng_draw) < splits.length,
      perform_volume_split splits rng_seed thread_rng_draw =
        .ok ((splits.get ⟨sampleIndex (splits.map (fun sp => sp.split))
              (volumeSplitDraw rng_seed thread_rng_draw), hi⟩).connector ::
            ((splits.map (fun sp => sp.connector)).eraseIdx
              (sampleIndex (splits.map (fun sp => sp.split))
                (volumeSplitDraw rng_seed thread_rng_draw)))) := by
  have hsum : (splits.map (fun sp => sp.split)).sum ≠ 0 := hpos
  have hlt : sampleIndex (splits.map (fun sp => sp.split))
      (volumeSplitDraw rng_seed thread_rng_draw) < splits.length := by
    have := sampleIndex_lt (splits.map (fun sp => sp.split))
      (volumeSplitDraw rng_seed thread_rng_draw) hsum
    simpa using this
  refine ⟨hlt, ?_⟩
  simp only [perform_volume_split, weightedIndexNew, if_neg hsum]
  rw [List.getElem?_eq_getElem hlt]
  simp only [List.map_cons]
  rw [eraseIdx_map_comm]
  rfl

/-- C3: for every non-empty splits list with positive total weight,
`perform_volume_split` returns a permutation of the input's connector list in
which the selected element is at index 0 and all other elements retain their
original relative order (the tail is the input connector list with the
selected index erased, a sublist of the input). -/
theorem perform_volume_split_permutation (splits : List ConnectorVolumeSplit)
    (rng_seed : Option String) (thread_rng_draw : Nat)
    (_hne : splits ≠ []) (hpos : 0 < totalWeight splits) :
    ∃ i, ∃ hi : i < splits.length,
      perform_volume_split splits rng_seed thread_rng_draw =
        .ok ((splits.get ⟨i, hi⟩).connector ::
          ((splits.map (fun sp => sp.connector)).eraseIdx i)) ∧
      ((splits.get ⟨i, hi⟩).connector ::
          ((splits.map (fun sp => sp.connector)).eraseIdx i)).Perm
        (splits.map (fun sp => sp.connector)) ∧
      ((splits.map (fun sp => sp.connector)).eraseIdx i).Sublist
        (splits.map (fun sp => sp.connector)) := by
  obtain ⟨hi, heq⟩ := perform_volume_split_eq splits rng_seed thread_rng_draw
    (Nat.pos_iff_ne_zero.mp hpos)
  refine ⟨_, hi, heq, ?_, List.eraseIdx_sublist _ _⟩
  have hmlen : sampleIndex (splits.map (fun sp => sp.split))
      (volumeSplitDraw rng_seed thread_rng_draw) <
      (splits.map (fun sp => sp.connector)).length := by simpa using hi
  have hperm := get_cons_eraseIdx_perm (splits.map (fun sp => sp.connector)) _ hmlen
  have hget : (splits.map (fun sp => sp.connector)).get ⟨_, hmlen⟩ =
      (splits.get ⟨_, hi⟩).connector := by
    simp [List.get_eq_getElem]
  rw [hget] at hperm
  exact hperm

/-- C3 witness: a concrete two-way split satisfies the permutation theorem. -/
theorem perform_volume_split_permutation_witness :
    ∃ i, ∃ hi : i < ([⟨⟨"A", none⟩, 70⟩, ⟨⟨"B", none⟩, 30⟩] :
        List ConnectorVolumeSplit).length,
      perform_volume_split [⟨⟨"A", none⟩, 70⟩, ⟨⟨"B", none⟩, 30⟩] none 0 =
        .ok ((([⟨⟨"A", none⟩, 70⟩, ⟨⟨"B", none⟩, 30⟩] :
            List ConnectorVolumeSplit).get ⟨i, hi⟩).connector ::
          ((([⟨⟨"A", none⟩, 70⟩, ⟨⟨"B", none⟩, 30⟩] :
            List ConnectorVolumeSplit).map (fun sp => sp.connector)).eraseIdx i)) ∧
      ((([⟨⟨"A", none⟩, 70⟩, ⟨⟨"B", none⟩, 30⟩] :
            List ConnectorVolumeSplit).get ⟨i, hi⟩).connector ::
          ((([⟨⟨"A", none⟩, 70⟩, ⟨⟨"B", none⟩, 30⟩] :
            List ConnectorVolumeSplit).map (fun sp => sp.connector)).eraseIdx i)).Perm
        (([⟨⟨"A", none⟩, 70⟩, ⟨⟨"B", none⟩, 30⟩] :
            List ConnectorVolumeSplit).map (fun sp => sp.connector)) ∧
      ((([⟨⟨"A", none⟩, 70⟩, ⟨⟨"B", none⟩, 30⟩] :
            List ConnectorVolumeSplit).map (fun sp => sp.connector)).eraseIdx i).Sublist
        (([⟨⟨"A", none⟩, 70⟩, ⟨⟨"B", none⟩, 30⟩] :
            List ConnectorVolumeSplit).map (fun sp => sp.connector)) :=
  perform_volume_split_permutation [⟨⟨"A", none⟩, 70⟩, ⟨⟨"B", none⟩, 30⟩] none 0
    (by decide) (by decide)

/-- C4: with the same splits and the same provided seed, two calls to
`perform_volume_split` return the same ordering regardless of the thread-rng
draws: the seeded branch derives the draw only from the stable 64-bit hash of
the seed fed to the ChaCha generator. -/
theorem perform_volume_split_deterministic (splits : List ConnectorVolumeSplit)
    (seed : String) (thread_rng_draw_one thread_rng_draw_two : Nat) :
    perform_volume_split splits (some seed) thread_rng_draw_one =
      perform_volume_split splits (some seed) thread_rng_draw_two ∧
    volumeSplitDraw (some seed) thread_rng_draw_one =
      chaCha8Draw (defaultHasherFinish seed) :=
  ⟨rfl, rfl⟩

/-- C9: `perform_volume_split` is total: when the list is empty or every
weight is zero (exactly: the total weight is zero) it returns the
`VolumeSplitFailed` error rather than panicking, and whenever the weighted
distribution is built the sampled index is in range, so the defensive
`get(idx)` guard passes and the call returns `Ok`. -/
theorem perform_volume_split_total_spec (splits : List ConnectorVolumeSplit)
    (rng_seed : Option String) (thread_rng_draw : Nat) :
    (totalWeight splits = 0 →
      perform_volume_split splits rng_seed thread_rng_draw =
        .error .VolumeSplitFailed) ∧
    (totalWeight splits ≠ 0 →
      sampleIndex (splits.map (fun sp => sp.split))
          (volumeSplitDraw rng_seed thread_rng_draw) < splits.length ∧
      ∃ l, perform_volume_split splits rng_seed thread_rng_draw = .ok l) := by
  constructor
  · intro hzero
    have hz : (splits.map (fun sp => sp.split)).sum = 0 := hzero
    simp only [perform_volume_split, weightedIndexNew]
    rw [if_pos hz]
  · intro hpos
    obtain ⟨hi, heq⟩ := perform_volume_split_eq splits rng_seed thread_rng_draw hpos
    exact ⟨hi, _, heq⟩

/-- C9 witness: the empty list fails with `VolumeSplitFailed`; a singleton
with weight 1 succeeds with an in-range index. -/
theorem perform_volume_split_total_spec_witness :
    perform_volume_split [] none 0 = .error .VolumeSplitFailed ∧
    ∃ l, perform_volume_split [⟨⟨"A", none⟩, 1⟩] none 0 = .ok l :=
  ⟨(perform_volume_split_total_spec [] none 0).1 (by decide),
    ((perform_volume_split_total_spec [⟨⟨"A", none⟩, 1⟩] none 0).2 (by decide)).2⟩

/-- From `api_models::routing::RoutingAlgorithm`: tagged routing algorithm
variants; `Advanced` carries the rule program (opaque here). -/
inductive RoutingAlgorithm
  | Single (conn : RoutableConnectorChoice)
  | Priority (plist : List RoutableConnectorChoice)
  | VolumeSplit (splits : List ConnectorVolumeSplit)
  | Advanced (program : String)
deriving DecidableEq

/-- `execute_dsl_and_get_connector_v1` (routing.rs:381-399): run the prepared
interpreter on the backend input (the interpreter execution together with the
`foreign_into` normalization of its `ConnectorSelection` output is abstracted
as `interpreter_output`; its failure becomes `DslExecutionError`), then
dispatch: `Priority` is returned as-is, `VolumeSplit` runs an unseeded volume
split whose failure becomes `DslFinalConnectorSelectionFailed`, and every
other variant is `DslIncorrectSelectionAlgorithm`. -/
def execute_dsl_and_get_connector_v1
    (interpreter_output : Except Unit RoutingAlgorithm)
    (thread_rng_draw : Nat) :
    Except RoutingError (List RoutableConnectorChoice) :=
  match interpreter_output with
  | .error _ => .error .DslExecutionError
  | .ok routing_output =>
    match routing_output with
    | .Priority plist => .ok plist
    | .VolumeSplit splits =>
      match perform_volume_split splits none thread_rng_draw with
      | .error _ => .error .DslFinalConnectorSelectionFailed
      | .ok l => .ok l
    | _ => .error .DslIncorrectSelectionAlgorithm

/-- C5: when the interpreter output normalizes to a variant other than
`Priority` or `VolumeSplit` (in particular a `Single` selection, or an
`Advanced` program), `execute_dsl_and_get_connector_v1` fails with
`DslIncorrectSelectionAlgorithm`; a `Priority` output is returned as-is, and a
`VolumeSplit` output whose subsequent split fails yields
`DslFinalConnectorSelectionFailed`. -/
theorem execute_dsl_dispatch_spec (conn : RoutableConnectorChoice)
    (plist : List RoutableConnectorChoice) (splits : List ConnectorVolumeSplit)
    (program : String) (thread_rng_draw : Nat) :
    execute_dsl_and_get_connector_v1 (.ok (.Single conn)) thread_rng_draw =
      .error .DslIncorrectSelectionAlgorithm ∧
    execute_dsl_and_get_connector_v1 (.ok (.Advanced program)) thread_rng_draw =
      .error .DslIncorrectSelectionAlgorithm ∧
    execute_dsl_and_get_connector_v1 (.ok (.Priority plist)) thread_rng_draw =
      .ok plist ∧
    ((perform_volume_split splits none thread_rng_draw).isOk = false →
      execute_dsl_and_get_connector_v1 (.ok (.VolumeSplit splits)) thread_rng_draw =
        .error .DslFinalConnectorSelectionFailed) := by
  refine ⟨rfl, rfl, rfl, fun hfail => ?_⟩
  simp only [execute_dsl_and_get_connector_v1]
  cases hsplit : perform_volume_split splits none thread_rng_draw with
  | error e => rfl
  | ok l => rw [hsplit] at hfail; simp [Except.isOk, Except.toBool] at hfail

/-- C5 witness: the all-zero-weight split list makes the inner volume split
fail, which surfaces as `DslFinalConnectorSelectionFailed`. -/
theorem execute_dsl_dispatch_spec_witness :
    execute_dsl_and_get_connector_v1 (.ok (.VolumeSplit [⟨⟨"A", none⟩, 0⟩])) 0 =
      .error .DslFinalConnectorSelectionFailed :=
  (execute_dsl_dispatch_spec ⟨"A", none⟩ [] [⟨⟨"A", none⟩, 0⟩] "p" 0).2.2.2 (by decide)

/-- From `hyperswitch_domain_models::mandates::AcceptanceType`. -/
inductive AcceptanceType
  | Online
  | Offline
deriving DecidableEq

/-- From `euclid_enums::MandateAcceptanceType`. -/
inductive MandateAcceptanceType
  | Online
  | Offline
deriving DecidableEq

/-- From `hyperswitch_domain_models::mandates::MandateDataType` (the single-use
and multi-use payloads carry amount data unused by the input builder). -/
inductive MandateDataType
  | SingleUse
  | MultiUse
deriving DecidableEq

/-- From `euclid_enums::MandateType`. -/
inductive MandateType
  | SingleUse
  | MultiUse
deriving DecidableEq

/-- From `euclid_enums::PaymentType`. -/
inductive PaymentType
  | NonMandate
  | SetupMandate
deriving DecidableEq

/-- Customer acceptance inside the stored mandate data. -/
structure CustomerAcceptance where
  acceptance_type : AcceptanceType
deriving DecidableEq

/-- The `setup_mandate` record of `PaymentData` (storage mandate data). -/
structure SetupMandateData where
  customer_acceptance : Option CustomerAcceptance
  mandate_type : Option MandateDataType
deriving DecidableEq

/-- Card payment-method data: PAN and optional card network.  Scalar
vocabularies that the builder moves without inspecting (currencies, countries,
payment-method names, capture methods, authentication types) are modelled as
strings. -/
structure Card where
  card_number : String
  card_network : Option String
deriving DecidableEq

/-- `api::PaymentMethodData`: the builder only distinguishes `Card` from every
other variant. -/
inductive PaymentMethodData
  | Card (card : Card)
  | Other
deriving DecidableEq

/-- Address details holding an optional two-letter country. -/
structure AddressDetails where
  country : Option String
deriving DecidableEq

/-- `api_models::payments::Address`: optional address details. -/
structure Address where
  address : Option AddressDetails
deriving DecidableEq

/-- The slice of `PaymentAddress` used by the builder:
`get_payment_method_billing()`. -/
structure PaymentAddress where
  payment_method_billing : Option Address
deriving DecidableEq

/-- The fields of `oss_storage::PaymentAttempt` read by the input builders. -/
structure PaymentAttempt where
  payment_method : Option String
  payment_method_type : Option String
  authentication_type : Option String
  capture_method : Option String
  amount : Int
  currency : Option String
  attempt_id : String
deriving DecidableEq

/-- The fields of `oss_storage::PaymentIntent` read by the input builders.
`metadata` is the raw serde value, modelled as a string. -/
structure PaymentIntent where
  amount : Int
  currency : Option String
  metadata : Option String
  business_country : Option String
  business_label : Option String
  setup_future_usage : Option String
  profile_id : Option String
deriving DecidableEq

/-- The slice of `payments_oss::PaymentData` read by `make_dsl_input`. -/
structure PaymentData where
  setup_mandate : Option SetupMandateData
  payment_method_data : Option PaymentMethodData
  payment_attempt : PaymentAttempt
  payment_intent : PaymentIntent
  address : PaymentAddress
  currency : String
deriving DecidableEq

/-- Model of `api_enums::Country::from_alpha2`: a renaming of the two-letter
code into the DSL country vocabulary. -/
def country_from_alpha2 (code : String) : String := code

/-- Model of the `ForeignInto` conversion on the attempt's capture method
(`capture_method.and_then(|cm| cm.foreign_into())`). -/
def capture_method_foreign_into (cm : String) : Option String := some cm

/-- Model of `api_enums::PaymentMethod::foreign_from` on the payout type. -/
def payment_method_foreign_from (payout_type : String) : String := payout_type

/-- Model of `api_enums::PaymentMethodType::foreign_from` on the payout method
data. -/
def payment_method_type_foreign_from (payout_method_data : String) : String :=
  payout_method_data

/-- `dsl_inputs::MandateData`. -/
structure MandateData where
  mandate_acceptance_type : Option MandateAcceptanceType
  mandate_type : Option MandateType
  payment_type : Option PaymentType
deriving DecidableEq

/-- `dsl_inputs::PaymentInput`. -/
structure PaymentInput where
  amount : Int
  card_bin : Option String
  currency : String
  authentication_type : Option String
  capture_method : Option String
  business_country : Option String
  billing_country : Option String
  business_label : Option String
  setup_future_usage : Option String
deriving DecidableEq

/-- `dsl_inputs::PaymentMethodInput`. -/
structure PaymentMethodInput where
  payment_method : Option String
  payment_method_type : Option String
  card_network : Option String
deriving DecidableEq

/-- `dsl_inputs::BackendInput`. -/
structure BackendInput where
  metadata : Option String
  payment : PaymentInput
  payment_method : PaymentMethodInput
  mandate : MandateData
deriving DecidableEq

/-- The metadata projection shared by all input builders:
`metadata.map(|val| val.parse_value("routing_parameters")).transpose()
.change_context(MetadataParsingError).unwrap_or(None)` — a parse failure is
downgraded to absent metadata.  The serde parse is the `parse` parameter. -/
def parse_metadata (parse : String → Except Unit String)
    (metadata : Option String) : Option String :=
  match metadata.map parse with
  | none => none
  | some (.ok routing_parameters) => some routing_parameters
  | some (.error _) => none

/-- `make_dsl_input` (routing.rs:150-251): project a payment into the
normalized `BackendInput`: mandate vocabulary translation, card network and
six-digit card bin from card data, country renamings, soft metadata parse. -/
def make_dsl_input (parse : String → Except Unit String)
    (payment_data : PaymentData) : Except RoutingError BackendInput :=
  let mandate_data : MandateData :=
    { mandate_acceptance_type := payment_data.setup_mandate.bind
        (fun mandate_data => mandate_data.customer_acceptance.map
          (fun cat => match cat.acceptance_type with
            | AcceptanceType.Online => MandateAcceptanceType.Online
            | AcceptanceType.Offline => MandateAcceptanceType.Offline)),
      mandate_type := payment_data.setup_mandate.bind
        (fun mandate_data => mandate_data.mandate_type.map
          (fun mt => match mt with
            | MandateDataType.SingleUse => MandateType.SingleUse
            | MandateDataType.MultiUse => MandateType.MultiUse)),
      payment_type := some (match payment_data.setup_mandate with
        | none => PaymentType.NonMandate
        | some _ => PaymentType.SetupMandate) }
  let payment_method_input : PaymentMethodInput :=
    { payment_method := payment_data.payment_attempt.payment_method,
      payment_method_type := payment_data.payment_attempt.payment_method_type,
      card_network := payment_data.payment_method_data.bind
        (fun pm_data => match pm_data with
          | PaymentMethodData.Card card => card.card_network
          | _ => none) }
  let payment_input : PaymentInput :=
    { amount := payment_data.payment_intent.amount,
      card_bin := payment_data.payment_method_data.bind
        (fun pm_data => match pm_data with
          | PaymentMethodData.Card card => some (card.card_number.take 6)
          | _ => none),
      currency := payment_data.currency,
      authentication_type := payment_data.payment_attempt.authentication_type,
      capture_method := payment_data.payment_attempt.capture_method.bind
        capture_method_foreign_into,
      business_country := payment_data.payment_intent.business_country.map
        country_from_alpha2,
      billing_country := ((payment_data.address.payment_method_billing.bind
        (fun bic => bic.address)).bind (fun add => add.country)).map
        country_from_alpha2,
      business_label := payment_data.payment_intent.business_label,
      setup_future_usage := payment_data.payment_intent.setup_future_usage }
  let metadata := parse_metadata parse payment_data.payment_intent.metadata
  .ok { metadata := metadata, payment := payment_input,
        payment_method := payment_method_input, mandate := mandate_data }

/-- The fields of `payouts::Payouts` read by the payout input builder. -/
structure Payouts where
  amount : Int
  destination_currency : String
  payout_type : Option String
  metadata : Option String
deriving DecidableEq

/-- The fields of the payout attempt read by the payout input builder. -/
structure PayoutAttempt where
  business_country : Option String
  business_label : Option String
  profile_id : String
deriving DecidableEq

/-- The slice of `payouts::PayoutData` read by `make_dsl_input_for_payouts`. -/
structure PayoutData where
  payouts : Payouts
  payout_attempt : PayoutAttempt
  billing_address : Option AddressDetails
  payout_method_data : Option String
deriving DecidableEq

/-- `make_dsl_input_for_payouts` (routing.rs:96-148). -/
def make_dsl_input_for_payouts (parse : String → Except Unit String)
    (payout_data : PayoutData) : Except RoutingError BackendInput :=
  let mandate : MandateData :=
    { mandate_acceptance_type := none, mandate_type := none, payment_type := none }
  let metadata := parse_metadata parse payout_data.payouts.metadata
  let payment : PaymentInput :=
    { amount := payout_data.payouts.amount,
      card_bin := none,
      currency := payout_data.payouts.destination_currency,
      authentication_type := none,
      capture_method := none,
      business_country := payout_data.payout_attempt.business_country.map
        country_from_alpha2,
      billing_country := (payout_data.billing_address.bind
        (fun bic => bic.country)).map country_from_alpha2,
      business_label := payout_data.payout_attempt.business_label,
      setup_future_usage := none }
  let payment_method : PaymentMethodInput :=
    { payment_method := payout_data.payouts.payout_type.map
        payment_method_foreign_from,
      payment_method_type := payout_data.payout_method_data.map
        payment_method_type_foreign_from,
      card_network := none }
  .ok { mandate := mandate, metadata := metadata, payment := payment,
        payment_method := payment_method }

/-- `make_dsl_input_for_surcharge` (routing.rs:1023-1075): same projection as
`make_dsl_input` without payment-method or mandate data; the attempt's
currency is required (`DslMissingRequiredField` otherwise) and its capture
method is passed through unconverted. -/
def make_dsl_input_for_surcharge (parse : String → Except Unit String)
    (payment_attempt : PaymentAttempt) (payment_intent : PaymentIntent)
    (billing_address : Option Address) : Except RoutingError BackendInput :=
  let mandate_data : MandateData :=
    { mandate_acceptance_type := none, mandate_type := none, payment_type := none }
  match payment_attempt.currency with
  | none => .error (.DslMissingRequiredField "currency")
  | some currency =>
    let payment_input : PaymentInput :=
      { amount := payment_attempt.amount,
        currency := currency,
        authentication_type := payment_attempt.authentication_type,
        card_bin := none,
        capture_method := payment_attempt.capture_method,
        business_country := payment_intent.business_country.map
          country_from_alpha2,
        billing_country := ((billing_address.bind (fun bic => bic.address)).bind
          (fun add => add.country)).map country_from_alpha2,
        business_label := payment_intent.business_label,
        setup_future_usage := payment_intent.setup_future_usage }
    let metadata := parse_metadata parse payment_intent.metadata
    let payment_method_input : PaymentMethodInput :=
      { payment_method := none, payment_method_type := none, card_network := none }
    .ok { metadata := metadata, payment := payment_input,
          payment_method := payment_method_input, mandate := mandate_data }

/-- The session-flow `BackendInput` construction inside
`perform_session_flow_routing` (routing.rs:817-868): empty payment-method and
mandate records, required currency, billing country from the session input's
country, soft metadata parse. -/
def make_session_backend_input (parse : String → Except Unit String)
    (payment_intent : PaymentIntent) (payment_attempt : PaymentAttempt)
    (country : Option String) : Except RoutingError BackendInput :=
  let payment_method_input : PaymentMethodInput :=
    { payment_method := none, payment_method_type := none, card_network := none }
  match payment_intent.currency with
  | none => .error (.DslMissingRequiredField "currency")
  | some currency =>
    let payment_input : PaymentInput :=
      { amount := payment_intent.amount,
        currency := currency,
        authentication_type := payment_attempt.authentication_type,
        card_bin := none,
        capture_method := payment_attempt.capture_method.bind
          capture_method_foreign_into,
        business_country := payment_intent.business_country.map
          country_from_alpha2,
        billing_country := country.map country_from_alpha2,
        business_label := payment_intent.business_label,
        setup_future_usage := payment_intent.setup_future_usage }
    let metadata := parse_metadata parse payment_intent.metadata
    .ok { metadata := metadata, payment := payment_input,
          payment_method := payment_method_input,
          mandate := { mandate_acceptance_type := none, mandate_type := none,
                       payment_type := none } }

/-- C7: when the payment (or payout) metadata is present but fails to parse as
`routing_parameters`, every input builder — `make_dsl_input`,
`make_dsl_input_for_payouts`, `make_dsl_input_for_surcharge` and the
session-flow input construction — produces exactly the `BackendInput` it
would produce with the metadata absent, and `make_dsl_input` and
`make_dsl_input_for_payouts` never fail at all, so invalid metadata JSON
neither alters nor blocks the downstream connector selection. -/
theorem metadata_parse_failure_soft (parse : String → Except Unit String)
    (v : String) (hfail : parse v = .error ()) :
    (∀ pd : PaymentData,
      make_dsl_input parse
          { pd with payment_intent := { pd.payment_intent with metadata := some v } } =
        make_dsl_input parse
          { pd with payment_intent := { pd.payment_intent with metadata := none } } ∧
      (make_dsl_input parse pd).isOk = true) ∧
    (∀ pod : PayoutData,
      make_dsl_input_for_payouts parse
          { pod with payouts := { pod.payouts with metadata := some v } } =
        make_dsl_input_for_payouts parse
          { pod with payouts := { pod.payouts with metadata := none } } ∧
      (make_dsl_input_for_payouts parse pod).isOk = true) ∧
    (∀ (payment_attempt : PaymentAttempt) (payment_intent : PaymentIntent)
        (billing_address : Option Address),
      make_dsl_input_for_surcharge parse payment_attempt
          { payment_intent with metadata := some v } billing_address =
        make_dsl_input_for_surcharge parse payment_attempt
          { payment_intent with metadata := none } billing_address) ∧
    (∀ (payment_intent : PaymentIntent) (payment_attempt : PaymentAttempt)
        (country : Option String),
      make_session_backend_input parse
          { payment_intent with metadata := some v } payment_attempt country =
        make_session_backend_input parse
          { payment_intent with metadata := none } payment_attempt country) := by
  have hmeta : parse_metadata parse (some v) = parse_metadata parse none := by
    simp [parse_metadata, hfail]
  refine ⟨fun pd => ⟨?_, rfl⟩, fun pod => ⟨?_, rfl⟩,
    fun payment_attempt payment_intent billing_address => ?_,
    fun payment_intent payment_attempt country => ?_⟩
  · simp only [make_dsl_input, hmeta]
  · simp only [make_dsl_input_for_payouts, hmeta]
  · simp only [make_dsl_input_for_surcharge, hmeta]
  · simp only [make_session_backend_input, hmeta]

/-- C7 witness: with a parse function that rejects everything, a concrete
payment with unparseable metadata produces the same `BackendInput` as the same
payment with no metadata, and the builder succeeds. -/
theorem metadata_parse_failure_soft_witness :
    make_dsl_input (fun _ => .error ())
        ⟨none, none, ⟨none, none, none, none, 100, some "USD", "att_1"⟩,
          ⟨100, some "USD", some "not json", none, none, none, some "prof"⟩,
          ⟨none⟩, "USD"⟩ =
      make_dsl_input (fun _ => .error ())
        ⟨none, none, ⟨none, none, none, none, 100, some "USD", "att_1"⟩,
          ⟨100, some "USD", none, none, none, none, some "prof"⟩,
          ⟨none⟩, "USD"⟩ ∧
    (make_dsl_input (fun _ => .error ())
        ⟨none, none, ⟨none, none, none, none, 100, some "USD", "att_1"⟩,
          ⟨100, some "USD", some "not json", none, none, none, some "prof"⟩,
          ⟨none⟩, "USD"⟩).isOk = true :=
  (metadata_parse_failure_soft (fun _ => .error ()) "not json" rfl).1
    ⟨none, none, ⟨none, none, none, none, 100, some "USD", "att_1"⟩,
      ⟨100, some "USD", some "not json", none, none, none, some "prof"⟩,
      ⟨none⟩, "USD"⟩

/-- `CachedAlgorithm` (routing.rs:54-59): the compiled algorithm published in
the routing cache; `Advanced` holds the prepared interpreter, identified here
by its program text. -/
inductive CachedAlgorithm
  | Single (conn : RoutableConnectorChoice)
  | Priority (plist : List RoutableConnectorChoice)
  | VolumeSplit (splits : List ConnectorVolumeSplit)
  | Advanced (program : String)
deriving DecidableEq

/-- `perform_static_routing_v1` (routing.rs:253-311): require the profile id;
with no `algorithm_id` on the algorithm reference, fetch and return the
merchant's default fallback config (failure becomes
`FallbackConfigFetchFailed`); otherwise resolve the cached algorithm
(`ensure_algorithm_cached_v1`, abstracted as a resolver) and dispatch on its
variant, the `Advanced` arm building the DSL input and running the
interpreter.  Storage, cache and interpreter are explicit parameters. -/
def perform_static_routing_v1 (profile_id : Option String)
    (algorithm_id : Option String)
    (fallback_config : Except Unit (List RoutableConnectorChoice))
    (ensure_algorithm_cached : String → Except RoutingError CachedAlgorithm)
    (backend_input : Except RoutingError BackendInput)
    (interpreter : String → BackendInput → Except Unit RoutingAlgorithm)
    (thread_rng_draw : Nat) :
    Except RoutingError (List RoutableConnectorChoice) :=
  match profile_id with
  | none => .error .ProfileIdMissing
  | some _ =>
    match algorithm_id with
    | none =>
      match fallback_config with
      | .error _ => .error .FallbackConfigFetchFailed
      | .ok fallback => .ok fallback
    | some id =>
      match ensure_algorithm_cached id with
      | .error e => .error e
      | .ok (CachedAlgorithm.Single conn) => .ok [conn]
      | .ok (CachedAlgorithm.Priority plist) => .ok plist
      | .ok (CachedAlgorithm.VolumeSplit splits) =>
        match perform_volume_split splits none thread_rng_draw with
        | .error _ => .error .ConnectorSelectionFailed
        | .ok l => .ok l
      | .ok (CachedAlgorithm.Advanced program) =>
        match backend_input with
        | .error e => .error e
        | .ok bi => execute_dsl_and_get_connector_v1 (interpreter program bi)
            thread_rng_draw

/-- C6: with a present profile id and an absent `algorithm_id`,
`perform_static_routing_v1` returns the merchant's default fallback config
unchanged (only mapping a fetch failure to `FallbackConfigFetchFailed`); the
result does not depend on the cache resolver, the backend input, the
interpreter, or the rng draw, so no cache lookup, algorithm dispatch, CGraph
consultation, or eligibility filtering happens on this path. -/
theorem perform_static_routing_v1_fallback_branch (p : String)
    (fallback_config : Except Unit (List RoutableConnectorChoice))
    (ensure_algorithm_cached : String → Except RoutingError CachedAlgorithm)
    (backend_input : Except RoutingError BackendInput)
    (interpreter : String → BackendInput → Except Unit RoutingAlgorithm)
    (thread_rng_draw : Nat) :
    perform_static_routing_v1 (some p) none fallback_config
        ensure_algorithm_cached backend_input interpreter thread_rng_draw =
      fallback_config.mapError (fun _ => RoutingError.FallbackConfigFetchFailed) := by
  cases fallback_config <;> rfl

/-- The per-candidate judgment of the constraint graph inside the filter loop:
`choice.foreign_into().into_dir_value()` composed with
`cgraph.check_value_validity(dir_val, context, memo, cycle_check, None)`;
either step may fail. -/
def CGraph : Type := RoutableConnectorChoice → Except Unit Bool

/-- The loop body of `perform_cgraph_filtering` (routing.rs:642-665): for each
candidate in order, evaluate the cgraph judgment (failure aborts the whole
call with `KgraphAnalysisError`), evaluate allow-list membership
(`map_or(true, contains)`), and keep the candidate iff both hold. -/
def cgraph_filter_loop (g : CGraph)
    (eligible_connectors : Option (List String)) :
    List RoutableConnectorChoice →
      Except RoutingError (List RoutableConnectorChoice)
  | [] => .ok []
  | choice :: rest =>
    match g choice with
    | .error _ => .error .KgraphAnalysisError
    | .ok cgraph_eligible =>
      let filter_eligible : Bool :=
        match eligible_connectors with
        | none => true
        | some list => list.contains choice.connector
      match cgraph_filter_loop g eligible_connectors rest with
      | .error e => .error e
      | .ok tail =>
        .ok (if cgraph_eligible && filter_eligible then choice :: tail else tail)

/-- `perform_cgraph_filtering` (routing.rs:626-668): build the analysis
context from the backend input (`into_context`, failure is
`KgraphAnalysisError`), fetch the merchant cgraph (`get_merchant_cgraph`,
whose error propagates), then run the filter loop. -/
def perform_cgraph_filtering (into_context : Except Unit Unit)
    (cgraph_lookup : Except RoutingError CGraph)
    (chosen : List RoutableConnectorChoice)
    (eligible_connectors : Option (List String)) :
    Except RoutingError (List RoutableConnectorChoice) :=
  match into_context with
  | .error _ => .error .KgraphAnalysisError
  | .ok _ =>
    match cgraph_lookup with
    | .error e => .error e
    | .ok g => cgraph_filter_loop g eligible_connectors chosen

/-- The membership predicate computed by the filter loop: cgraph validity and
allow-list membership. -/
def connector_passes (g : CGraph)
    (eligible_connectors : Option (List String))
    (choice : RoutableConnectorChoice) : Bool :=
  (match g choice with | .ok b => b | .error _ => false) &&
  (match eligible_connectors with
    | none => true
    | some list => list.contains choice.connector)

theorem cgraph_filter_loop_eq_filter (g : CGraph)
    (eligible_connectors : Option (List String))
    (chosen : List RoutableConnectorChoice)
    (h : ∀ c ∈ chosen, (g c).isOk = true) :
    cgraph_filter_loop g eligible_connectors chosen =
      .ok (chosen.filter (connector_passes g eligible_connectors)) := by
  induction chosen with
  | nil => rfl
  | cons c rest ih =>
    have hc : (g c).isOk = true := h c (List.mem_cons_self c rest)
    have hrest := ih (fun x hx => h x (List.mem_cons_of_mem c hx))
    obtain ⟨b, hb⟩ : ∃ b, g c = .ok b := by
      cases hgc : g c with
      | ok b => exact ⟨b, rfl⟩
      | error e => rw [hgc] at hc; simp [Except.isOk, Except.toBool] at hc
    simp only [cgraph_filter_loop, hb, hrest, List.filter_cons, connector_passes]

/-- C2: when every per-candidate CGraph evaluation succeeds,
`perform_cgraph_filtering` returns exactly the subsequence of input candidates
that are judged valid by the constraint graph and, when an allow-list is
supplied, whose connector is contained in the allow-list, in the input's
relative order; with no allow-list, CGraph validity alone decides
membership. -/
theorem perform_cgraph_filtering_spec (g : CGraph)
    (chosen : List RoutableConnectorChoice)
    (eligible_connectors : Option (List String))
    (h : ∀ c ∈ chosen, (g c).isOk = true) :
    perform_cgraph_filtering (.ok ()) (.ok g) chosen eligible_connectors =
      .ok (chosen.filter (connector_passes g eligible_connectors)) ∧
    (chosen.filter (connector_passes g eligible_connectors)).Sublist chosen ∧
    chosen.filter (connector_passes g none) =
      chosen.filter (fun c => match g c with | .ok b => b | .error _ => false) := by
  refine ⟨cgraph_filter_loop_eq_filter g eligible_connectors chosen h,
    List.filter_sublist chosen, ?_⟩
  apply List.filter_congr
  intro c _
  simp [connector_passes]

/-- C2 witness: a concrete graph accepting connectors A and C with allow-list
[A, B] keeps exactly A, in order. -/
theorem perform_cgraph_filtering_spec_witness :
    perform_cgraph_filtering (.ok ())
        (.ok (fun c => .ok (c.connector == "A" || c.connector == "C")))
        [⟨"A", none⟩, ⟨"B", none⟩, ⟨"C", none⟩] (some ["A", "B"]) =
      .ok (([⟨"A", none⟩, ⟨"B", none⟩, ⟨"C", none⟩] :
          List RoutableConnectorChoice).filter
        (connector_passes (fun c => .ok (c.connector == "A" || c.connector == "C"))
          (some ["A", "B"]))) :=
  (perform_cgraph_filtering_spec
    (fun c => .ok (c.connector == "A" || c.connector == "C"))
    [⟨"A", none⟩, ⟨"B", none⟩, ⟨"C", none⟩] (some ["A", "B"]) (by decide)).1

/-- `perform_eligibility_analysis_with_fallback` (routing.rs:738-783): filter
the chosen candidates through the cgraph (`perform_eligibility_analysis`;
failure is fatal), filter the merchant default config the same way
(`perform_fallback_routing`; any failure, fetch included, is downgraded to an
empty list by `unwrap_or_default`), then append the fallback entries that are
not value-equal to an element of the primary segment. -/
def perform_eligibility_analysis_with_fallback (into_context : Except Unit Unit)
    (cgraph_lookup : Except RoutingError CGraph)
    (chosen : List RoutableConnectorChoice)
    (fallback_config : Except Unit (List RoutableConnectorChoice))
    (eligible_connectors : Option (List String)) :
    Except RoutingError (List RoutableConnectorChoice) :=
  match perform_cgraph_filtering into_context cgraph_lookup chosen
      eligible_connectors with
  | .error e => .error e
  | .ok final_selection =>
    let fallback_selection : Except RoutingError (List RoutableConnectorChoice) :=
      match fallback_config with
      | .error _ => .error .FallbackConfigFetchFailed
      | .ok fallback => perform_cgraph_filtering into_context cgraph_lookup
          fallback eligible_connectors
    let fallback_list := match fallback_selection with
      | .ok l => l
      | .error _ => []
    .ok (final_selection ++ fallback_list.filter
      (fun routable_connector_choice =>
        !(final_selection.contains routable_connector_choice)))

/-- C1: when both filter passes succeed, the result is the
eligibility-filtered primary candidates followed by exactly those
eligibility-filtered default-config entries not value-equal to any element of
the filtered primary segment; each segment preserves its source's relative
order and no element of the second segment occurs in the first. -/
theorem perform_eligibility_analysis_with_fallback_spec (g : CGraph)
    (chosen fallback : List RoutableConnectorChoice)
    (eligible_connectors : Option (List String))
    (hchosen : ∀ c ∈ chosen, (g c).isOk = true)
    (hfallback : ∀ c ∈ fallback, (g c).isOk = true) :
    perform_eligibility_analysis_with_fallback (.ok ()) (.ok g) chosen
        (.ok fallback) eligible_connectors =
      .ok (chosen.filter (connector_passes g eligible_connectors) ++
        (fallback.filter (connector_passes g eligible_connectors)).filter
          (fun c => !((chosen.filter
            (connector_passes g eligible_connectors)).contains c))) ∧
    (chosen.filter (connector_passes g eligible_connectors)).Sublist chosen ∧
    ((fallback.filter (connector_passes g eligible_connectors)).filter
        (fun c => !((chosen.filter
          (connector_passes g eligible_connectors)).contains c))).Sublist
      fallback ∧
    ∀ c ∈ (fallback.filter (connector_passes g eligible_connectors)).filter
        (fun c => !((chosen.filter
          (connector_passes g eligible_connectors)).contains c)),
      c ∉ chosen.filter (connector_passes g eligible_connectors) := by
  refine ⟨?_, List.filter_sublist chosen,
    (List.filter_sublist _).trans (List.filter_sublist fallback), ?_⟩
  · simp only [perform_eligibility_analysis_with_fallback,
      perform_cgraph_filtering,
      cgraph_filter_loop_eq_filter g eligible_connectors chosen hchosen,
      cgraph_filter_loop_eq_filter g eligible_connectors fallback hfallback]
  · intro c hc hcP
    have hmem := List.mem_filter.mp hc
    have hcontains : (chosen.filter
        (connector_passes g eligible_connectors)).contains c = true :=
      List.elem_iff.mpr hcP
    rw [hcontains] at hmem
    simp at hmem

/-- C1 witness: with a graph accepting everything, primary [A] and fallback
[A, B] combine to [A, B]: the duplicate A from the fallback is dropped. -/
theorem perform_eligibility_analysis_with_fallback_spec_witness :
    perform_eligibility_analysis_with_fallback (.ok ())
        (.ok (fun _ => .ok true)) [⟨"A", none⟩]
        (.ok [⟨"A", none⟩, ⟨"B", none⟩]) none =
      .ok [⟨"A", none⟩, ⟨"B", none⟩] := by
  have h := (perform_eligibility_analysis_with_fallback_spec (fun _ => .ok true)
    [⟨"A", none⟩] [⟨"A", none⟩, ⟨"B", none⟩] none (by decide) (by decide)).1
  rw [h]
  rfl

/-- From `diesel_models::enums::ConnectorType`. -/
inductive ConnectorType
  | PaymentProcessor
  | PaymentVas
  | FinOperations
  | FizOperations
  | Networks
  | BankingEntities
  | NonBankingFinance
  | PayoutProcessor
  | PaymentMethodAuth
  | AuthenticationProcessor
deriving DecidableEq

/-- `api_enums::TransactionType`. -/
inductive TransactionType
  | Payment
  | Payout
deriving DecidableEq

/-- The fields of a merchant connector account read by the cgraph refresh. -/
structure MerchantConnectorAccount where
  connector_type : ConnectorType
  disabled : Bool
deriving DecidableEq

/-- Modelled from the spec:
`find_merchant_connector_account_by_merchant_id_and_disabled_list(merchant,
include_disabled=false, key_store) → list<MCA>` (spec section 6); the storage
implementation is outside `src/`.  The store returns the merchant's connector
accounts, excluding disabled ones when `get_disabled` is false. -/
def find_merchant_connector_account_by_merchant_id_and_disabled_list
    (accounts : List MerchantConnectorAccount) (get_disabled : Bool) :
    List MerchantConnectorAccount :=
  if get_disabled then accounts
  else accounts.filter (fun mca => !mca.disabled)

/-- The fetch-and-retain prefix of `refresh_cgraph_cache` (routing.rs:536-561):
fetch the merchant's non-disabled connector accounts, then for a Payment
transaction retain accounts whose `connector_type` is none of `PaymentVas`,
`PaymentMethodAuth`, `PayoutProcessor`, `AuthenticationProcessor`, and for a
Payout transaction retain exactly the `PayoutProcessor` accounts. -/
def refresh_cgraph_cache_retained (accounts : List MerchantConnectorAccount)
    (transaction_type : TransactionType) : List MerchantConnectorAccount :=
  let merchant_connector_accounts :=
    find_merchant_connector_account_by_merchant_id_and_disabled_list accounts false
  match transaction_type with
  | TransactionType.Payment =>
    merchant_connector_accounts.filter (fun mca =>
      !(mca.connector_type == ConnectorType.PaymentVas) &&
      !(mca.connector_type == ConnectorType.PaymentMethodAuth) &&
      !(mca.connector_type == ConnectorType.PayoutProcessor) &&
      !(mca.connector_type == ConnectorType.AuthenticationProcessor))
  | TransactionType.Payout =>
    merchant_connector_accounts.filter (fun mca =>
      mca.connector_type == ConnectorType.PayoutProcessor)

/-- C8: during CGraph cache refresh, for a Payment transaction the retained
accounts are exactly the enabled accounts whose connector type is not
`PaymentVas`, `PaymentMethodAuth`, `PayoutProcessor` or
`AuthenticationProcessor`; for a Payout transaction, exactly the enabled
`PayoutProcessor` accounts. -/
theorem refresh_cgraph_cache_retained_spec
    (accounts : List MerchantConnectorAccount) :
    refresh_cgraph_cache_retained accounts TransactionType.Payment =
      accounts.filter (fun mca => !mca.disabled &&
        (!(mca.connector_type == ConnectorType.PaymentVas) &&
         !(mca.connector_type == ConnectorType.PaymentMethodAuth) &&
         !(mca.connector_type == ConnectorType.PayoutProcessor) &&
         !(mca.connector_type == ConnectorType.AuthenticationProcessor))) ∧
    refresh_cgraph_cache_retained accounts TransactionType.Payout =
      accounts.filter (fun mca => !mca.disabled &&
        (mca.connector_type == ConnectorType.PayoutProcessor)) := by
  constructor <;>
    simp only [refresh_cgraph_cache_retained,
      find_merchant_connector_account_by_merchant_id_and_disabled_list,
      if_neg (by simp : ¬(false = true)), List.filter_filter] <;>
    apply List.filter_congr <;>
    intro mca _ <;>
    cases mca.disabled <;>
    cases hct : mca.connector_type <;>
    simp [hct]

/-- `is_webhook_event_disabled` (webhooks/utils.rs:30-63): look up the
merchant webhook config in redis (`get_and_deserialize_key`); on success
answer by set membership of the event; on failure fall back to the database
config row (`find_config_by_key`), parse its JSON into a
`MerchantWebhookConfig` set, answer by membership, and return `false` on a
parse failure or on a database failure.  The redis lookup, the database
lookup and the serde parse are explicit parameters; the config set is a list
of event names. -/
def is_webhook_event_disabled
    (redis_lookup : Except Unit (List String))
    (db_lookup : Except Unit String)
    (parse_config : String → Except Unit (List String))
    (event : String) : Bool :=
  match redis_lookup with
  | .ok merchant_webhook_config => merchant_webhook_config.contains event
  | .error _ =>
    match db_lookup with
    | .ok config =>
      match parse_config config with
      | .ok s => s.contains event
      | .error _ => false
    | .error _ => false

/-- C10: `is_webhook_event_disabled` answers `true` exactly when a
successfully fetched and parsed config set contains the event — from redis,
or from the database after a redis failure; in every other case, in
particular when both lookups fail or when the database row's JSON fails to
parse, it answers `false` (fail-open). -/
theorem is_webhook_event_disabled_spec
    (redis_lookup : Except Unit (List String))
    (db_lookup : Except Unit String)
    (parse_config : String → Except Unit (List String))
    (event : String) :
    (is_webhook_event_disabled redis_lookup db_lookup parse_config event = true ↔
      ((∃ s, redis_lookup = .ok s ∧ s.contains event = true) ∨
       (redis_lookup = .error () ∧
        ∃ config s, db_lookup = .ok config ∧ parse_config config = .ok s ∧
          s.contains event = true))) ∧
    (∀ config, redis_lookup = .error () → db_lookup = .ok config →
      parse_config config = .error () →
      is_webhook_event_disabled redis_lookup db_lookup parse_config event = false) ∧
    (redis_lookup = .error () → db_lookup = .error () →
      is_webhook_event_disabled redis_lookup db_lookup parse_config event = false) := by
  refine ⟨?_, ?_, ?_⟩
  · cases redis_lookup with
    | ok s => simp [is_webhook_event_disabled]
    | error e =>
      cases db_lookup with
      | ok config =>
        cases hp : parse_config config with
        | ok s => simp [is_webhook_event_disabled, hp]
        | error e2 => simp [is_webhook_event_disabled, hp]
      | error e2 => simp [is_webhook_event_disabled]
  · intro config hr hd hp
    subst hr
    subst hd
    simp [is_webhook_event_disabled, hp]
  · intro hr hd
    subst hr
    subst hd
    rfl

/-- C10 witness: with both lookups failing the event is reported enabled. -/
theorem is_webhook_event_disabled_spec_witness :
    is_webhook_event_disabled (.error ()) (.error ())
        (fun _ => .error ()) "payment_succeeded" = false :=
  (is_webhook_event_disabled_spec (.error ()) (.error ())
    (fun _ => .error ()) "payment_succeeded").2.2 rfl rfl
